import Mathlib

/-!
Verification of the competitor-review sentiment pipeline.

A shallow embedding of the pure computational core of `sentiment_analyzer.py`
and `competitor_search_service.py`: Python strings become Lean `String`s
(with Python's `strip`/`lower`/`rstrip` re-implemented over `List Char`),
floats become `ℚ`, DOM lookups become functions from CSS-selector strings to
optional element data, the classification model becomes a function returning
`Except` (an exception is an `Except.error`), and the incremental scroll loop
becomes a fuel-indexed step function whose termination is an explicit `∃ fuel`
statement.  Each definition mirrors one Python function of the repository.
-/

namespace Transformilca

/-! ### Python string primitives

`pyStrip` is Python `str.strip()` (drop leading and trailing whitespace),
`pyLower` is `str.lower()` (per-character lowering; the repository only ever
compares ASCII sentinels), `pyRstripSlash` is `str.rstrip('/')`,
`containsSub` is Python's `needle in hay` substring test, and `natRepr`
renders a natural number in decimal as Python `str(int)` does inside an
f-string. -/

def dropTrailingP (p : Char → Bool) : List Char → List Char
  | [] => []
  | c :: cs =>
    let r := dropTrailingP p cs
    if r.isEmpty && p c then [] else c :: r

def pyStrip (s : String) : String :=
  ⟨dropTrailingP Char.isWhitespace (s.data.dropWhile Char.isWhitespace)⟩

def pyLower (s : String) : String :=
  ⟨s.data.map Char.toLower⟩

def pyRstripSlash (s : String) : String :=
  ⟨dropTrailingP (fun c => c == '/') s.data⟩

def containsSub (needle : List Char) : List Char → Bool
  | [] => needle.isEmpty
  | c :: t => needle.isPrefixOf (c :: t) || containsSub needle t

/-- Python `pat in s` on strings. -/
def strContains (s pat : String) : Bool :=
  containsSub pat.data s.data

/-- Python `s.endswith(pat)`. -/
def pyEndsWith (s pat : String) : Bool :=
  pat.data.reverse.isPrefixOf s.data.reverse

/-- The specification-side notion of substring containment: `pat` occurs
contiguously inside `s`. -/
def SubstringOf (pat s : String) : Prop :=
  ∃ pre suf, s.data = pre ++ pat.data ++ suf

def digitChar (d : ℕ) : Char := Char.ofNat (48 + d % 10)

def natDigits : ℕ → ℕ → List Char
  | 0, _ => []
  | fuel + 1, n =>
    if n < 10 then [digitChar n] else natDigits fuel (n / 10) ++ [digitChar (n % 10)]

/-- Decimal rendering of a natural number, as Python `str` renders an `int`. -/
def natRepr (n : ℕ) : String := ⟨natDigits (n + 1) n⟩

/-- Numeric value of a run of decimal digit characters. -/
def natOfDigits (l : List Char) : ℕ :=
  l.foldl (fun a c => a * 10 + (c.toNat - 48)) 0

/-- Value of a run of digit characters read as a decimal fraction `0.d₁d₂…`. -/
def fracOfDigits (l : List Char) : ℚ :=
  l.foldr (fun c a => (((c.toNat - 48 : ℕ) : ℚ) + a) / 10) 0

/-- Python `int(q)` for a non-negative rational: truncation toward zero. -/
def pyInt (q : ℚ) : ℤ := q.num / (q.den : ℤ)

/-- Python `name.replace(' ', '+')`. -/
def pyReplaceSpacePlus (s : String) : String :=
  ⟨s.data.map fun c => if c = ' ' then '+' else c⟩

/-! ### Lemmas about the string primitives -/

theorem dropWhile_self_idem {α : Type} (p : α → Bool) (l : List α) :
    (l.dropWhile p).dropWhile p = l.dropWhile p := by
  induction l with
  | nil => rfl
  | cons a t ih =>
    by_cases h : p a
    · simp [List.dropWhile_cons, h, ih]
    · simp [List.dropWhile_cons, h]

theorem dropTrailingP_idem (p : Char → Bool) (l : List Char) :
    dropTrailingP p (dropTrailingP p l) = dropTrailingP p l := by
  induction l with
  | nil => rfl
  | cons c cs ih =>
    show dropTrailingP p
        (if (dropTrailingP p cs).isEmpty && p c then [] else c :: dropTrailingP p cs) =
      (if (dropTrailingP p cs).isEmpty && p c then [] else c :: dropTrailingP p cs)
    by_cases hr : (dropTrailingP p cs).isEmpty && p c
    · simp [hr, dropTrailingP]
    · simp only [hr, if_false, reduceIte]
      show (if (dropTrailingP p (dropTrailingP p cs)).isEmpty && p c then [] else
          c :: dropTrailingP p (dropTrailingP p cs)) = c :: dropTrailingP p cs
      rw [ih]
      simp [hr]

theorem length_dropWhile_le {α : Type} (p : α → Bool) (l : List α) :
    (l.dropWhile p).length ≤ l.length := by
  induction l with
  | nil => simp
  | cons a t ih =>
    by_cases h : p a
    · rw [List.dropWhile_cons, if_pos h]
      simp only [List.length_cons]
      omega
    · rw [List.dropWhile_cons, if_neg h]

theorem dropWhile_dropTrailingP (p : Char → Bool) (l : List Char)
    (h : l.dropWhile p = l) :
    (dropTrailingP p l).dropWhile p = dropTrailingP p l := by
  cases l with
  | nil => rfl
  | cons c cs =>
    have hc : p c = false := by
      cases hpc : p c
      · rfl
      · exfalso
        rw [List.dropWhile_cons, if_pos hpc] at h
        have hlen := congrArg List.length h
        have hle := length_dropWhile_le p cs
        simp only [List.length_cons] at hlen
        omega
    show (dropTrailingP p (c :: cs)).dropWhile p = dropTrailingP p (c :: cs)
    show (if (dropTrailingP p cs).isEmpty && p c then [] else
        c :: dropTrailingP p cs).dropWhile p =
      (if (dropTrailingP p cs).isEmpty && p c then [] else c :: dropTrailingP p cs)
    by_cases hr : (dropTrailingP p cs).isEmpty && p c
    · simp [hr]
    · simp only [hr, if_false, reduceIte]
      simp [List.dropWhile_cons, hc]

theorem pyStrip_idem (s : String) : pyStrip (pyStrip s) = pyStrip s := by
  show (⟨dropTrailingP Char.isWhitespace
      ((dropTrailingP Char.isWhitespace
        (s.data.dropWhile Char.isWhitespace)).dropWhile Char.isWhitespace)⟩ : String) = _
  rw [dropWhile_dropTrailingP Char.isWhitespace _
      (dropWhile_self_idem Char.isWhitespace s.data)]
  rw [dropTrailingP_idem]
  rfl

theorem pyStrip_empty : pyStrip "" = "" := rfl

theorem pyStrip_ne_empty {s : String} (h : pyStrip s ≠ "") : s ≠ "" := by
  intro he
  exact h (by rw [he]; rfl)

theorem isPrefixOf_eq_true {l₁ l₂ : List Char} :
    l₁.isPrefixOf l₂ = true ↔ ∃ t, l₂ = l₁ ++ t := by
  induction l₁ generalizing l₂ with
  | nil => simp [List.isPrefixOf]
  | cons a as ih =>
    cases l₂ with
    | nil => simp [List.isPrefixOf]
    | cons b bs =>
      simp only [List.isPrefixOf, Bool.and_eq_true, beq_iff_eq, ih, List.cons_append]
      constructor
      · rintro ⟨rfl, t, rfl⟩
        exact ⟨t, rfl⟩
      · rintro ⟨t, ht⟩
        injection ht with h1 h2
        exact ⟨h1.symm, t, h2⟩

theorem containsSub_iff (pat hay : List Char) :
    containsSub pat hay = true ↔ ∃ pre suf, hay = pre ++ pat ++ suf := by
  induction hay with
  | nil =>
    simp only [containsSub, List.isEmpty_iff]
    constructor
    · rintro rfl
      exact ⟨[], [], rfl⟩
    · rintro ⟨pre, suf, h⟩
      rcases List.append_eq_nil.mp h.symm with ⟨h1, h2⟩
      exact (List.append_eq_nil.mp h1).2
  | cons c t ih =>
    simp only [containsSub, Bool.or_eq_true, isPrefixOf_eq_true, ih]
    constructor
    · rintro (⟨s, hs⟩ | ⟨p, s, hp⟩)
      · exact ⟨[], s, by simp [hs]⟩
      · exact ⟨c :: p, s, by simp [hp]⟩
    · rintro ⟨pre, suf, h⟩
      cases pre with
      | nil =>
        left
        exact ⟨suf, by simpa using h⟩
      | cons d ds =>
        right
        rw [List.cons_append, List.cons_append] at h
        injection h with h1 h2
        exact ⟨ds, suf, h2⟩

theorem substringOf_iff (pat s : String) :
    SubstringOf pat s ↔ strContains s pat = true :=
  (containsSub_iff pat.data s.data).symm

instance (pat s : String) : Decidable (SubstringOf pat s) :=
  decidable_of_iff (containsSub pat.data s.data = true)
    (substringOf_iff pat s).symm

theorem digitChar_not_ws (d : ℕ) : (digitChar d).isWhitespace = false := by
  have h : d % 10 < 10 := Nat.mod_lt _ (by omega)
  unfold digitChar
  interval_cases h : d % 10 <;> decide

theorem natDigits_not_ws (fuel n : ℕ) :
    ∀ c ∈ natDigits fuel n, c.isWhitespace = false := by
  induction fuel generalizing n with
  | zero => intro c hc; simp [natDigits] at hc
  | succ fuel ih =>
    intro c hc
    unfold natDigits at hc
    by_cases h : n < 10
    · simp [h] at hc
      rw [hc]; exact digitChar_not_ws n
    · simp [h] at hc
      rcases hc with hc | hc
      · exact ih (n / 10) c hc
      · rw [hc]; exact digitChar_not_ws (n % 10)

theorem natDigits_ne_nil (fuel n : ℕ) : natDigits (fuel + 1) n ≠ [] := by
  unfold natDigits
  by_cases h : n < 10 <;> simp [h]

theorem dropTrailingP_append_singleton (p : Char → Bool) (l : List Char) (c : Char)
    (hc : p c = false) : dropTrailingP p (l ++ [c]) = l ++ [c] := by
  induction l with
  | nil => simp [dropTrailingP, hc]
  | cons a t ih =>
    show (if (dropTrailingP p (t ++ [c])).isEmpty && p a then []
        else a :: dropTrailingP p (t ++ [c])) = a :: (t ++ [c])
    rw [ih]
    simp

/-- Stripping the synthetic fallback business name is a no-op: it starts with
a letter and ends with a decimal digit. -/
theorem pyStrip_business (n : ℕ) :
    pyStrip ("Business " ++ natRepr (n + 1)) = "Business " ++ natRepr (n + 1) := by
  have hdata : ("Business " ++ natRepr (n + 1)).data =
      "Business ".data ++ natDigits (n + 1 + 1) (n + 1) := rfl
  rcases (natDigits (n + 1 + 1) (n + 1)).eq_nil_or_concat' with hnil | ⟨l', c, hlc⟩
  · exact absurd hnil (natDigits_ne_nil (n + 1) (n + 1))
  have hcmem : c ∈ natDigits (n + 1 + 1) (n + 1) := by
    rw [hlc]; simp
  have hcws : c.isWhitespace = false := natDigits_not_ws _ _ c hcmem
  show (⟨dropTrailingP Char.isWhitespace
      ((("Business " ++ natRepr (n + 1)).data).dropWhile Char.isWhitespace)⟩ : String) = _
  rw [hdata, hlc]
  have hdrop : (("Business ".data ++ (l' ++ [c])).dropWhile Char.isWhitespace) =
      "Business ".data ++ (l' ++ [c]) := by
    have : "Business ".data = 'B' :: "usiness ".data := rfl
    rw [this, List.cons_append, List.dropWhile_cons]
    simp
  rw [hdrop, show "Business ".data ++ (l' ++ [c]) = ("Business ".data ++ l') ++ [c] by
    simp,
    dropTrailingP_append_singleton Char.isWhitespace _ c hcws]
  show (⟨("Business ".data ++ l') ++ [c]⟩ : String) = "Business " ++ natRepr (n + 1)
  have : ("Business " ++ natRepr (n + 1)).data = ("Business ".data ++ l') ++ [c] := by
    rw [hdata, hlc]; simp
  rw [← this]

/-! ### Sentiment classifier — `analyze_sentiment_textblob`

The Hugging-Face pipeline is a parameter `Option (String → Except String (String × ℚ))`:
`none` is the uninitialized pipeline (`self.sentiment_pipeline is None`), and a
call returning `Except.error` is a raised exception caught by the surrounding
`try`/`except`.  The second component of the result counts how many times the
model was invoked, so "no model call" is provable.  A fixed classifier result
is the pair `(label, score)` read from the pipeline output dictionary. -/

structure SentimentOutput where
  sentiment : String
  polarity : ℚ
  subjectivity : ℚ
  confidence : ℚ
deriving DecidableEq

/-- The Neutral/zero dictionary returned for empty input and on any error. -/
def defaultNeutralResult : SentimentOutput :=
  { sentiment := "Neutral", polarity := 0, subjectivity := 0, confidence := 0 }

/-- Python `re.search(r"(\d)", label)`: the first decimal digit embedded in the label,
valued as `int` of that digit.  A decimal digit is a character with code point
48–57 (the repository's labels are ASCII; Python's `\d` would also accept
other Unicode digit characters, which changes nothing below). -/
def firstDigit : List Char → Option ℕ
  | [] => none
  | c :: t =>
    if 48 ≤ c.toNat ∧ c.toNat ≤ 57 then some (c.toNat - 48) else firstDigit t

def labelToStarsAux (label_lower : String) (label : String) : ℕ :=
  if strContains label_lower "very negative" then 1
  else if label_lower = "negative" then 2
  else if label_lower = "neutral" then 3
  else if label_lower = "positive" then 4
  else if strContains label_lower "very positive" then 5
  else
    match firstDigit label.data with
    | some d => d
    | none => 3

/-- The label → star mapping inlined in `analyze_sentiment_textblob`
(lines 379–394): known 5-point tokens first on
`label_lower = str(label).strip().lower()`, then the digit fallback on the
raw label, defaulting to 3. -/
def labelToStars (label : String) : ℕ :=
  labelToStarsAux (pyLower (pyStrip label)) label

abbrev Pipeline := Option (String → Except String (String × ℚ))

/-- Embedding of `analyze_sentiment_textblob` (lines 355–419).  Returns the sentiment
dictionary together with the number of model invocations performed. -/
def analyze_sentiment_textblob (pipeline : Pipeline) (text : String) :
    SentimentOutput × ℕ :=
  if pyStrip text = "" then (defaultNeutralResult, 0)
  else
    match pipeline with
    | none => (defaultNeutralResult, 0)
    | some f =>
      match f text with
      | Except.error _ => (defaultNeutralResult, 1)
      | Except.ok (label, score) =>
        let stars_value := labelToStars label
        let sentiment_label :=
          if 4 ≤ stars_value then "Positive"
          else if stars_value ≤ 2 then "Negative"
          else "Neutral"
        ({ sentiment := sentiment_label,
           polarity := ((stars_value : ℚ) - 3) / 2,
           subjectivity := 1 / 2,
           confidence := score }, 1)

/-! ### Star-rating extraction and review processing -/

/-- Leftmost match of `\d+(?:\.\d+)?`: an integer digit run, optionally
followed by `.` and a non-empty digit run, read as a rational. -/
def firstNumber : List Char → Option ℚ
  | [] => none
  | c :: rest =>
    if c.isDigit then
      let ds := c :: rest.takeWhile Char.isDigit
      let rest2 := rest.dropWhile Char.isDigit
      match rest2 with
      | '.' :: r2 =>
        let fs := r2.takeWhile Char.isDigit
        if fs.isEmpty then some ((natOfDigits ds : ℚ))
        else some ((natOfDigits ds : ℚ) + fracOfDigits fs)
      | _ => some ((natOfDigits ds : ℚ))
    else firstNumber rest

/-- Embedding of `extract_star_rating` (lines 445–462): `int(float(m.group(1)))` of the
first decimal number in the star text, defaulting to 3. -/
def extract_star_rating (stars_text : String) : ℤ :=
  match firstNumber stars_text.data with
  | some q => pyInt q
  | none => 3

/-- One row of the scraped reviews DataFrame
(`Name`, `Reviews Count`, `Stars`, `Review Text`, `Source URL`). -/
structure ScrapedReview where
  name : String
  reviewsCount : String
  stars : String
  reviewText : String
  sourceUrl : String
deriving DecidableEq

/-- One row after `process_reviews_dataframe`: the sentiment columns plus the
extracted numeric `Star Rating` (the non-numeric columns play no role in any
summary and are omitted; the `Analysis Date` timestamp column likewise). -/
structure ReviewRow where
  sentiment : String
  polarity : ℚ
  subjectivity : ℚ
  confidence : ℚ
  starRating : ℤ
deriving DecidableEq

/-- Embedding of `analyze_sentiment_batch` (lines 421–443). -/
def analyze_sentiment_batch (pipeline : Pipeline) (texts : List String) :
    List SentimentOutput :=
  texts.map fun text =>
    if text ≠ "" ∧ pyStrip text ≠ "" then (analyze_sentiment_textblob pipeline text).1
    else defaultNeutralResult

/-- Embedding of `process_reviews_dataframe` (lines 464–492): attach the batch sentiment
columns and the extracted star rating to each review row. -/
def process_reviews_dataframe (pipeline : Pipeline) (df : List ScrapedReview) :
    List ReviewRow :=
  let sentiment_results := analyze_sentiment_batch pipeline (df.map (·.reviewText))
  (df.zip sentiment_results).map fun rs =>
    { sentiment := rs.2.sentiment
      polarity := rs.2.polarity
      subjectivity := rs.2.subjectivity
      confidence := rs.2.confidence
      starRating := extract_star_rating rs.1.stars }

/-! ### Aggregation engine — `generate_sentiment_summary` -/

/-- Python `df['Sentiment'].value_counts().get(s, 0)`. -/
def countSentiment (df : List ReviewRow) (s : String) : ℕ :=
  df.countP fun r => r.sentiment == s

/-- Arithmetic mean of a numeric column. -/
def listMean (f : ReviewRow → ℚ) (df : List ReviewRow) : ℚ :=
  (df.map f).sum / (df.length : ℚ)

/-- The percentage `(count / total_reviews) * 100` for one sentiment bucket. -/
def sentimentPercentage (df : List ReviewRow) (s : String) : ℚ :=
  ((countSentiment df s : ℚ) / (df.length : ℚ)) * 100

/-- The summary dictionary built by `generate_sentiment_summary` for a
non-empty DataFrame (the `analysis_date` timestamp field is omitted). -/
structure SentimentSummary where
  total_reviews : ℕ
  sentiment_counts : String → ℕ
  sentiment_percentages : List (String × ℚ)
  average_polarity : ℚ
  average_subjectivity : ℚ
  average_confidence : ℚ
  average_star_rating : ℚ

def summarize (df : List ReviewRow) : SentimentSummary :=
  { total_reviews := df.length
    sentiment_counts := fun s => countSentiment df s
    sentiment_percentages :=
      ["Positive", "Negative", "Neutral"].map fun s => (s, sentimentPercentage df s)
    average_polarity := listMean (·.polarity) df
    average_subjectivity := listMean (·.subjectivity) df
    average_confidence := listMean (·.confidence) df
    average_star_rating := listMean (fun r => (r.starRating : ℚ)) df }

/-- Embedding of `generate_sentiment_summary` (lines 494–531): the empty DataFrame yields
the empty dictionary (`none`); otherwise the statistics above. -/
def generate_sentiment_summary (df : List ReviewRow) : Option SentimentSummary :=
  if df.isEmpty then none else some (summarize df)

/-! ### Review scraper — per-node record extraction (lines 249–319)

A DOM review node answers each CSS selector with an optional element carrying
an optional `aria-label` attribute and its text.  `find_element` raising
`NoSuchElementException` is the `none` answer. -/

structure DomElement where
  ariaLabel : Option String
  text : String

abbrev ReviewNode := String → Option DomElement

def review_name_selectors : List String :=
  ["div.d4r55", "div[data-attrid=\"title\"]", "div.TSUbDb", "span.X43Kjb"]

def review_count_selectors : List String :=
  ["div.RfnDt", "span.RfnDt", "div[data-attrid=\"reviewCount\"]"]

def review_star_selectors : List String :=
  ["span.kvMYJc", "div[role=\"img\"]", "span[aria-label*=\"star\"]"]

def review_text_selectors : List String :=
  ["span.wiI7pd", "div[data-attrid=\"description\"]", "div.MyEned", "div.review-text"]

/-- The `for selector in …: value = elem.text.strip(); if value: break` loop.
The accumulator mirrors the Python variable: it is overwritten (possibly with
the empty string) on every selector that finds an element, so the default only
survives when every selector fails. -/
def extractTextField (node : ReviewNode) : List String → String → String
  | [], acc => acc
  | s :: rest, acc =>
    match node s with
    | none => extractTextField node rest acc
    | some el =>
      let v := pyStrip el.text
      if v ≠ "" then v else extractTextField node rest v

/-- The star loop reads `elem.get_attribute('aria-label') or elem.text`
without stripping. -/
def extractStarsField (node : ReviewNode) : List String → String → String
  | [], acc => acc
  | s :: rest, acc =>
    match node s with
    | none => extractStarsField node rest acc
    | some el =>
      let v :=
        match el.ariaLabel with
        | some a => if a ≠ "" then a else el.text
        | none => el.text
      if v ≠ "" then v else extractStarsField node rest v

def extractReviewText (node : ReviewNode) : String :=
  extractTextField node review_text_selectors "No Review Text"

/-- The record `(name, reviews_count, stars, review_text, url)` built for one
review node. -/
def buildReviewRecord (url : String) (node : ReviewNode) : ScrapedReview :=
  { name := extractTextField node review_name_selectors "Unknown"
    reviewsCount := extractTextField node review_count_selectors "N/A"
    stars := extractStarsField node review_star_selectors "No Rating"
    reviewText := extractReviewText node
    sourceUrl := url }

/-- The per-node loop of `_scrape_single_google_reviews` (lines 249–316): a
record is appended exactly when
`review_text and review_text.strip() and review_text.lower() != "no review text"`. -/
def processReviewNodes (url : String) (nodes : List ReviewNode) : List ScrapedReview :=
  nodes.filterMap fun node =>
    if (buildReviewRecord url node).reviewText ≠ "" ∧
        pyStrip (buildReviewRecord url node).reviewText ≠ "" ∧
        pyLower (buildReviewRecord url node).reviewText ≠ "no review text"
    then some (buildReviewRecord url node) else none

/-! ### Review scraper — the incremental scroll loop (lines 217–247)

The loop's interaction with the page is abstracted as `oracle : ℕ → ℕ`, the
count of review nodes returned by the i-th DOM re-query after a scroll.  The
state carries the current count (`len(reviews)`), the stall counter
(`attempts`) and the next oracle index; `scrollRun` is the loop with explicit
fuel, returning `none` when the fuel is exhausted before the loop exits. -/

structure ScrollState where
  count : ℕ
  attempts : ℕ
  idx : ℕ
deriving DecidableEq

def scrollRun (limit : ℕ) (oracle : ℕ → ℕ) : ℕ → ScrollState → Option ℕ
  | 0, _ => none
  | fuel + 1, s =>
    if limit ≤ s.count then some s.count
    else if oracle s.idx = s.count then
      if 20 ≤ s.attempts + 1 then some s.count
      else scrollRun limit oracle fuel ⟨s.count, s.attempts + 1, s.idx + 1⟩
    else scrollRun limit oracle fuel ⟨oracle s.idx, 0, s.idx + 1⟩

/-- The scroll loop terminates from state `s` iff some finite fuel suffices. -/
def scrollTerminates (limit : ℕ) (oracle : ℕ → ℕ) (s : ScrollState) : Prop :=
  ∃ fuel, (scrollRun limit oracle fuel s).isSome = true

/-! ### Listing discovery — `competitor_search_service.py`

A DOM environment answers a CSS selector with the found element's text (or
`none` for `NoSuchElementException`); `_safe_extract_text` then strips it.
The detail pane visible after clicking a result item is a `DriverView`
(selector environment plus `driver.current_url`).  The three place-id regex
patterns are irrelevant to every claim below, so `_extract_place_id` is a
universally quantified parameter `extract_place_id`. -/

abbrev DomEnv := String → Option String

structure DriverView where
  sel : DomEnv
  current_url : String

/-- Embedding of `_safe_extract_text` (lines 341–347). -/
def safe_extract_text (env : DomEnv) (selector : String) : String :=
  match env selector with
  | none => ""
  | some t => pyStrip t

def invalid_names : List String :=
  ["النتائج", "النتايج", "نتائج", "Results", "RESULTS"]

/-- Embedding of `_sanitize_business_name` (lines 349–359). -/
def sanitize_business_name (raw_name : String) : String :=
  if raw_name = "" then ""
  else
    let name := pyStrip raw_name
    if name ∈ invalid_names then ""
    else if name.length ≤ 2 then ""
    else name

/-- The `for selector in …: candidate = sanitize(safe(env, selector)); if
candidate: break` loop; yields `""` when no selector produces a usable name. -/
def firstSanitizedName (env : DomEnv) : List String → String
  | [] => ""
  | s :: rest =>
    let candidate := sanitize_business_name (safe_extract_text env s)
    if candidate ≠ "" then candidate else firstSanitizedName env rest

/-- The `value = safe(env, selector); if value: break` loop (address/phone);
like the review-text loops the variable is overwritten every iteration. -/
def firstText (env : DomEnv) : List String → String → String
  | [], acc => acc
  | s :: rest, acc =>
    let t := safe_extract_text env s
    if t ≠ "" then t else firstText env rest t

/-- Embedding of `_extract_rating_number` (lines 438–447): anchored `^(\d+\.?\d*)`. -/
def extract_rating_number (rating_text : String) : ℚ :=
  match rating_text.data with
  | [] => 0
  | c :: rest =>
    if c.isDigit then
      let ds := c :: rest.takeWhile Char.isDigit
      let rest2 := rest.dropWhile Char.isDigit
      match rest2 with
      | '.' :: r2 => (natOfDigits ds : ℚ) + fracOfDigits (r2.takeWhile Char.isDigit)
      | _ => (natOfDigits ds : ℚ)
    else 0

def lowerPrefixReview (l : List Char) : Bool :=
  "review".data.isPrefixOf (l.map Char.toLower)

/-- Embedding of `_extract_review_count` (lines 449–458): leftmost match of
`\(?(\d+)\s*reviews?\)?` case-insensitively; the captured digits are the first
maximal digit run that is followed (after optional whitespace) by `review`. -/
def extractReviewCountAux : List Char → ℕ → ℕ
  | [], _ => 0
  | c :: rest, fuel =>
    if c.isDigit then
      let ds := c :: rest.takeWhile Char.isDigit
      let after := (rest.dropWhile Char.isDigit).dropWhile Char.isWhitespace
      if lowerPrefixReview after then natOfDigits ds
      else
        match fuel with
        | 0 => 0
        | fuel' + 1 => extractReviewCountAux (rest.dropWhile Char.isDigit) fuel'
    else
      match fuel with
      | 0 => 0
      | fuel' + 1 => extractReviewCountAux rest fuel'

def extract_review_count (review_text : String) : ℕ :=
  extractReviewCountAux review_text.data review_text.data.length

/-- The rating loop common to both extraction paths (lines 278–284 and
397–403): every non-empty selector text overwrites rating and review count,
and the loop stops at the first strictly positive rating. -/
def ratingLoop (env : DomEnv) : List String → ℚ → ℕ → ℚ × ℕ
  | [], r, rc => (r, rc)
  | s :: rest, r, rc =>
    let rating_text := safe_extract_text env s
    if rating_text ≠ "" then
      let r' := extract_rating_number rating_text
      let rc' := extract_review_count rating_text
      if 0 < r' then (r', rc') else ratingLoop env rest r' rc'
    else ratingLoop env rest r rc

structure Competitor where
  name : String
  rating : ℚ
  review_count : ℕ
  address : String
  phone : String
  google_maps_url : String
  place_id : String
  index : ℕ
  reviews_url : Option String
deriving DecidableEq

def single_name_selectors : List String :=
  ["h1[data-attrid=\x27title\x27]", "h1", ".x3AX1-LfntMc-header-title-title",
   ".SPZz6b h1", "[data-attrid=\x27title\x27]", "a.hfpxzc",
   "[role=\x27article\x27] a.hfpxzc"]

def single_rating_selectors : List String :=
  ["[jsaction*=\x27pane.rating.moreReviews\x27]", ".fontDisplayLarge",
   ".section-star-display", "[data-attrid=\x27star\x27]"]

def single_address_selectors : List String :=
  ["[data-item-id=\x27address\x27]", ".Io6YTe", ".LrzXr",
   "[data-attrid=\x27kc:/location/location:address\x27]"]

def single_phone_selectors : List String :=
  ["[data-item-id*=\x27phone\x27]", "[data-attrid=\x27kc:/business/phone\x27]",
   ".fontBodyMedium[data-value*=\x27+\x27]"]

def list_name_selectors : List String :=
  ["a.hfpxzc", "[role=\x27article\x27] a.hfpxzc", ".fontHeadlineSmall", "h3",
   ".section-result-title", ".fontBodyMedium", ".fontHeadlineSmall"]

def list_rating_selectors : List String :=
  [".section-star-display", ".fontCaption", "[aria-label*=\x27stars\x27]",
   ".section-rating"]

def list_address_selectors : List String :=
  [".section-result-location", ".fontBodyMedium", ".section-result-details"]

/-- The name chosen by `_extract_single_competitor` (lines 240–265): detail
pane selectors first, then two sanitized list-item fallbacks, then the
synthetic `"Business {index + 1}"`. -/
def singleCompetitorName (driver : DriverView) (item : DomEnv) (index : ℕ) : String :=
  let name0 := firstSanitizedName driver.sel single_name_selectors
  if name0 ≠ "" then name0
  else
    let n1 := sanitize_business_name (safe_extract_text item ".fontHeadlineSmall")
    if n1 ≠ "" then n1
    else
      let n2 := sanitize_business_name (safe_extract_text item "h3")
      if n2 ≠ "" then n2 else "Business " ++ natRepr (index + 1)

/-- The competitor dictionary built by `_extract_single_competitor`
(lines 319–328). -/
def singleCompetitorRecord (extract_place_id : String → String) (driver : DriverView)
    (item : DomEnv) (index : ℕ) : Competitor :=
  let rr := ratingLoop driver.sel single_rating_selectors 0 0
  { name := pyStrip (singleCompetitorName driver item index)
    rating := rr.1
    review_count := rr.2
    address := pyStrip (firstText driver.sel single_address_selectors "")
    phone := pyStrip (firstText driver.sel single_phone_selectors "")
    google_maps_url := driver.current_url
    place_id := extract_place_id driver.current_url
    index := index + 1
    reviews_url := none }

/-- Embedding of `_extract_single_competitor` (lines 230–339): returns the record only if
the name is non-empty and differs from the synthetic fallback. -/
def extract_single_competitor (extract_place_id : String → String)
    (driver : DriverView) (item : DomEnv) (index : ℕ) : Option Competitor :=
  let competitor_data := singleCompetitorRecord extract_place_id driver item index
  if competitor_data.name ≠ "" ∧
      competitor_data.name ≠ "Business " ++ natRepr (index + 1)
  then some competitor_data else none

/-- The `address` loop of `_extract_from_list_item` (lines 405–416): the
variable is overwritten each iteration and the loop breaks only when the text
is non-empty and mentions neither `rating` nor `star`. -/
def addressLoopList (env : DomEnv) : List String → String → String
  | [], acc => acc
  | s :: rest, acc =>
    let address := safe_extract_text env s
    if address ≠ "" ∧ strContains (pyLower address) "rating" = false ∧
        strContains (pyLower address) "star" = false
    then address else addressLoopList env rest address

/-- The name chosen by `_extract_from_list_item` (lines 364–384). -/
def listItemName (item : DomEnv) (index : ℕ) : String :=
  let name0 := firstSanitizedName item list_name_selectors
  if name0 ≠ "" then name0 else "Business " ++ natRepr (index + 1)

/-- Embedding of `_extract_from_list_item` (lines 361–436): always returns a record — the
synthetic fallback name is NOT filtered out on this path. -/
def extract_from_list_item (item : DomEnv) (index : ℕ) : Option Competitor :=
  let name := listItemName item index
  let rr := ratingLoop item list_rating_selectors 0 0
  some
    { name := pyStrip name
      rating := rr.1
      review_count := rr.2
      address := pyStrip (addressLoopList item list_address_selectors "")
      phone := ""
      google_maps_url := "https://www.google.com/maps/search/" ++ pyReplaceSpacePlus name
      place_id := ""
      index := index + 1
      reviews_url := none }

/-- The per-item loop of `_extract_competitor_data` (lines 205–222): detailed
extraction first, list-view fallback second, skip on double failure.  Each
result item is paired with the detail pane (`DriverView`) visible after
clicking it. -/
def extractCompetitorsLoop (extract_place_id : String → String) :
    List (DriverView × DomEnv) → ℕ → List Competitor
  | [], _ => []
  | (driver, item) :: rest, i =>
    let tail := extractCompetitorsLoop extract_place_id rest (i + 1)
    match extract_single_competitor extract_place_id driver item i with
    | some c => c :: tail
    | none =>
      match extract_from_list_item item i with
      | some c => c :: tail
      | none => tail

/-- Embedding of `_extract_competitor_data` (lines 175–228) restricted to its per-item
loop over `result_items[:max_results]`. -/
def extract_competitor_data (extract_place_id : String → String)
    (result_items : List (DriverView × DomEnv)) (max_results : ℕ) : List Competitor :=
  extractCompetitorsLoop extract_place_id (result_items.take max_results) 0

/-- Embedding of `get_google_reviews_url` (lines 476–497). -/
def get_google_reviews_url (google_maps_url : String) : Option String :=
  if google_maps_url = "" then none
  else if strContains google_maps_url "/place/" then
    if strContains google_maps_url "/reviews" then some google_maps_url
    else some (pyRstripSlash google_maps_url ++ "/reviews")
  else some google_maps_url

/-! ### Orchestrator — `analyze_competitors_sentiment` (lines 639–759)

Discovery output is the `competitors` input list; scraping one reviews URL is
the `scrape` parameter.  The AI-insight calls are external collaborators whose
output does not feed any numeric field, so they are omitted from the outcome;
the second component counts scrape invocations, making "performs no scraping"
provable.  The embedding is total: the Python `try`/`except` never propagates
an exception, and neither does this function. -/

structure CompetitorResult where
  competitor_info : Competitor
  reviews_data : List ReviewRow
  sentiment_summary : SentimentSummary
  total_reviews_analyzed : ℕ

inductive AnalysisOutcome where
  | errorResult (error : String) (competitors : List Competitor)
      (analysis_results : List (String × String))
  | report (competitors : List Competitor)
      (competitor_results : List CompetitorResult)
      (combined_summary : Option SentimentSummary)
      (total_reviews_analyzed : ℕ)

def competitorStep (pipeline : Pipeline) (scrape : String → List ScrapedReview)
    (acc : List CompetitorResult × List ReviewRow × ℕ) (competitor : Competitor) :
    List CompetitorResult × List ReviewRow × ℕ :=
  match competitor.reviews_url with
  | none => acc
  | some reviews_url =>
    if reviews_url = "" then acc
    else
      let df := scrape reviews_url
      let scrapes := acc.2.2 + 1
      if df.isEmpty then (acc.1, acc.2.1, scrapes)
      else
        let df_processed := process_reviews_dataframe pipeline df
        (acc.1 ++ [{ competitor_info := competitor
                     reviews_data := df_processed
                     sentiment_summary := summarize df_processed
                     total_reviews_analyzed := df_processed.length }],
         acc.2.1 ++ df_processed, scrapes)

def analyze_competitors_sentiment (pipeline : Pipeline)
    (competitors : List Competitor) (scrape : String → List ScrapedReview) :
    AnalysisOutcome × ℕ :=
  if competitors.isEmpty then
    (AnalysisOutcome.errorResult "No competitors found" [] [], 0)
  else
    let res := competitors.foldl (competitorStep pipeline scrape) ([], [], 0)
    (AnalysisOutcome.report competitors res.1
      (generate_sentiment_summary res.2.1) res.2.1.length, res.2.2)

/-! ## Aggregation-engine lemmas -/

theorem countSentiment_three (df : List ReviewRow)
    (hlab : ∀ r ∈ df, r.sentiment = "Positive" ∨ r.sentiment = "Negative" ∨
      r.sentiment = "Neutral") :
    countSentiment df "Positive" + countSentiment df "Negative" +
      countSentiment df "Neutral" = df.length := by
  induction df with
  | nil => rfl
  | cons r t ih =>
    have hr := hlab r (List.mem_cons_self r t)
    have ht := ih fun x hx => hlab x (List.mem_cons_of_mem r hx)
    simp only [countSentiment, List.countP_cons, List.length_cons] at ht ⊢
    rcases hr with h1 | h1 | h1 <;> rw [h1] <;> simp <;> omega

theorem length_ne_zero_q {df : List ReviewRow} (h : df ≠ []) :
    ((df.length : ℚ)) ≠ 0 := by
  have : df.length ≠ 0 := by
    cases df
    · exact absurd rfl h
    · simp
  exact_mod_cast this

theorem listMean_append (f : ReviewRow → ℚ) (A B : List ReviewRow)
    (hA : A ≠ []) (hB : B ≠ []) :
    listMean f (A ++ B) =
      ((A.length : ℚ) * listMean f A + (B.length : ℚ) * listMean f B) /
        ((A.length : ℚ) + (B.length : ℚ)) := by
  have hA' := length_ne_zero_q hA
  have hB' := length_ne_zero_q hB
  have hAB : ((A.length : ℚ)) + (B.length : ℚ) ≠ 0 := by
    have h0 : (0 : ℚ) ≤ (A.length : ℚ) := Nat.cast_nonneg _
    have h1 : (0 : ℚ) ≤ (B.length : ℚ) := Nat.cast_nonneg _
    intro hc
    rcases lt_or_eq_of_le h0 with h | h
    · nlinarith
    · exact hA' (by linarith)
  unfold listMean
  rw [List.map_append, List.sum_append, List.length_append]
  push_cast
  field_simp

theorem sentimentPercentage_append (s : String) (A B : List ReviewRow)
    (hA : A ≠ []) (hB : B ≠ []) :
    sentimentPercentage (A ++ B) s =
      ((A.length : ℚ) * sentimentPercentage A s +
        (B.length : ℚ) * sentimentPercentage B s) /
        ((A.length : ℚ) + (B.length : ℚ)) := by
  have hA' := length_ne_zero_q hA
  have hB' := length_ne_zero_q hB
  have hAB : ((A.length : ℚ)) + (B.length : ℚ) ≠ 0 := by
    intro hc
    have h1 : (0 : ℚ) ≤ (B.length : ℚ) := Nat.cast_nonneg _
    have h0 : (0 : ℚ) ≤ (A.length : ℚ) := Nat.cast_nonneg _
    rcases lt_or_eq_of_le h0 with h | h
    · nlinarith
    · exact hA' (by linarith)
  unfold sentimentPercentage countSentiment
  rw [List.countP_append, List.length_append]
  push_cast
  field_simp
  ring

theorem isEmpty_false_of_ne_nil {df : List ReviewRow} (h : df ≠ []) :
    df.isEmpty = false := by
  cases df
  · exact absurd rfl h
  · rfl

/-! ## C1 -/

/-- C1: for every non-empty list of classified reviews (each sentiment label
one of the three buckets), `generate_sentiment_summary` returns a summary
whose `sentiment_percentages` dictionary contains all three keys `Positive`,
`Negative`, `Neutral`, each bound to `bucket_count / total * 100`, and the
three percentages sum to exactly 100 — in particular within the 0.01
tolerance. -/
theorem sentiment_percentages_complete_and_sum (df : List ReviewRow)
    (hne : df ≠ [])
    (hlab : ∀ r ∈ df, r.sentiment = "Positive" ∨ r.sentiment = "Negative" ∨
      r.sentiment = "Neutral") :
    generate_sentiment_summary df = some (summarize df) ∧
    (summarize df).sentiment_percentages.lookup "Positive" =
      some (((countSentiment df "Positive" : ℚ) / (df.length : ℚ)) * 100) ∧
    (summarize df).sentiment_percentages.lookup "Negative" =
      some (((countSentiment df "Negative" : ℚ) / (df.length : ℚ)) * 100) ∧
    (summarize df).sentiment_percentages.lookup "Neutral" =
      some (((countSentiment df "Neutral" : ℚ) / (df.length : ℚ)) * 100) ∧
    sentimentPercentage df "Positive" + sentimentPercentage df "Negative" +
      sentimentPercentage df "Neutral" = 100 ∧
    |sentimentPercentage df "Positive" + sentimentPercentage df "Negative" +
      sentimentPercentage df "Neutral" - 100| ≤ 1 / 100 := by
  have hsum : sentimentPercentage df "Positive" + sentimentPercentage df "Negative" +
      sentimentPercentage df "Neutral" = 100 := by
    have hc := countSentiment_three df hlab
    have hn := length_ne_zero_q hne
    have hcast : ((countSentiment df "Positive" : ℚ)) + (countSentiment df "Negative" : ℚ) +
        (countSentiment df "Neutral" : ℚ) = (df.length : ℚ) := by
      exact_mod_cast hc
    unfold sentimentPercentage
    field_simp
    linear_combination 100 * hcast
  refine ⟨?_, rfl, rfl, rfl, hsum, ?_⟩
  · rw [generate_sentiment_summary, isEmpty_false_of_ne_nil hne]
    rfl
  · rw [hsum]
    simp

def c1Rows : List ReviewRow :=
  [{ sentiment := "Positive", polarity := 1, subjectivity := 1/2, confidence := 9/10,
     starRating := 5 },
   { sentiment := "Positive", polarity := 1, subjectivity := 1/2, confidence := 4/5,
     starRating := 4 },
   { sentiment := "Negative", polarity := -1, subjectivity := 1/2, confidence := 7/10,
     starRating := 1 }]

/-- C1 witness: the theorem instantiated at a concrete three-review list. -/
theorem sentiment_percentages_complete_and_sum_witness :
    generate_sentiment_summary c1Rows = some (summarize c1Rows) ∧
    (summarize c1Rows).sentiment_percentages.lookup "Positive" =
      some (((countSentiment c1Rows "Positive" : ℚ) / (c1Rows.length : ℚ)) * 100) ∧
    (summarize c1Rows).sentiment_percentages.lookup "Negative" =
      some (((countSentiment c1Rows "Negative" : ℚ) / (c1Rows.length : ℚ)) * 100) ∧
    (summarize c1Rows).sentiment_percentages.lookup "Neutral" =
      some (((countSentiment c1Rows "Neutral" : ℚ) / (c1Rows.length : ℚ)) * 100) ∧
    sentimentPercentage c1Rows "Positive" + sentimentPercentage c1Rows "Negative" +
      sentimentPercentage c1Rows "Neutral" = 100 ∧
    |sentimentPercentage c1Rows "Positive" + sentimentPercentage c1Rows "Negative" +
      sentimentPercentage c1Rows "Neutral" - 100| ≤ 1 / 100 :=
  sentiment_percentages_complete_and_sum c1Rows (by decide) (by decide)

/-! ## C2 -/

/-- C2: summarizing the concatenation of two non-empty labeled review sets
equals the review-count-weighted combination of the two separate summaries:
total and per-bucket counts add, and each percentage and each average
(polarity, subjectivity, confidence, star rating) is the weighted-by-count
mean of the per-set values.  This is the relation `analyze_competitors_sentiment`
relies on when it concatenates all listings' labeled reviews and re-runs
`generate_sentiment_summary` once. -/
theorem summary_weighted_combination (A B : List ReviewRow)
    (hA : A ≠ []) (hB : B ≠ []) :
    generate_sentiment_summary (A ++ B) = some (summarize (A ++ B)) ∧
    (summarize (A ++ B)).total_reviews =
      (summarize A).total_reviews + (summarize B).total_reviews ∧
    (summarize (A ++ B)).sentiment_counts "Positive" =
      (summarize A).sentiment_counts "Positive" + (summarize B).sentiment_counts "Positive" ∧
    (summarize (A ++ B)).sentiment_counts "Negative" =
      (summarize A).sentiment_counts "Negative" + (summarize B).sentiment_counts "Negative" ∧
    (summarize (A ++ B)).sentiment_counts "Neutral" =
      (summarize A).sentiment_counts "Neutral" + (summarize B).sentiment_counts "Neutral" ∧
    sentimentPercentage (A ++ B) "Positive" =
      ((A.length : ℚ) * sentimentPercentage A "Positive" +
        (B.length : ℚ) * sentimentPercentage B "Positive") /
        ((A.length : ℚ) + (B.length : ℚ)) ∧
    sentimentPercentage (A ++ B) "Negative" =
      ((A.length : ℚ) * sentimentPercentage A "Negative" +
        (B.length : ℚ) * sentimentPercentage B "Negative") /
        ((A.length : ℚ) + (B.length : ℚ)) ∧
    sentimentPercentage (A ++ B) "Neutral" =
      ((A.length : ℚ) * sentimentPercentage A "Neutral" +
        (B.length : ℚ) * sentimentPercentage B "Neutral") /
        ((A.length : ℚ) + (B.length : ℚ)) ∧
    (summarize (A ++ B)).average_polarity =
      ((A.length : ℚ) * (summarize A).average_polarity +
        (B.length : ℚ) * (summarize B).average_polarity) /
        ((A.length : ℚ) + (B.length : ℚ)) ∧
    (summarize (A ++ B)).average_subjectivity =
      ((A.length : ℚ) * (summarize A).average_subjectivity +
        (B.length : ℚ) * (summarize B).average_subjectivity) /
        ((A.length : ℚ) + (B.length : ℚ)) ∧
    (summarize (A ++ B)).average_confidence =
      ((A.length : ℚ) * (summarize A).average_confidence +
        (B.length : ℚ) * (summarize B).average_confidence) /
        ((A.length : ℚ) + (B.length : ℚ)) ∧
    (summarize (A ++ B)).average_star_rating =
      ((A.length : ℚ) * (summarize A).average_star_rating +
        (B.length : ℚ) * (summarize B).average_star_rating) /
        ((A.length : ℚ) + (B.length : ℚ)) := by
  have hne : A ++ B ≠ [] := by
    cases A
    · exact absurd rfl hA
    · simp
  refine ⟨?_, ?_, ?_, ?_, ?_,
    sentimentPercentage_append "Positive" A B hA hB,
    sentimentPercentage_append "Negative" A B hA hB,
    sentimentPercentage_append "Neutral" A B hA hB,
    listMean_append (·.polarity) A B hA hB,
    listMean_append (·.subjectivity) A B hA hB,
    listMean_append (·.confidence) A B hA hB,
    listMean_append (fun r => ((r.starRating : ℚ))) A B hA hB⟩
  · rw [generate_sentiment_summary, isEmpty_false_of_ne_nil hne]
    rfl
  · exact List.length_append A B
  · exact List.countP_append _ _ _
  · exact List.countP_append _ _ _
  · exact List.countP_append _ _ _

def c2RowsA : List ReviewRow :=
  [{ sentiment := "Positive", polarity := 1, subjectivity := 1/2, confidence := 9/10,
     starRating := 5 }]

def c2RowsB : List ReviewRow :=
  [{ sentiment := "Negative", polarity := -1, subjectivity := 1/2, confidence := 3/5,
     starRating := 1 },
   { sentiment := "Neutral", polarity := 0, subjectivity := 1/2, confidence := 1/2,
     starRating := 3 }]

/-- C2 witness: the theorem instantiated at two concrete review sets. -/
theorem summary_weighted_combination_witness :
    generate_sentiment_summary (c2RowsA ++ c2RowsB) = some (summarize (c2RowsA ++ c2RowsB)) ∧
    (summarize (c2RowsA ++ c2RowsB)).total_reviews =
      (summarize c2RowsA).total_reviews + (summarize c2RowsB).total_reviews ∧
    (summarize (c2RowsA ++ c2RowsB)).sentiment_counts "Positive" =
      (summarize c2RowsA).sentiment_counts "Positive" +
        (summarize c2RowsB).sentiment_counts "Positive" ∧
    (summarize (c2RowsA ++ c2RowsB)).sentiment_counts "Negative" =
      (summarize c2RowsA).sentiment_counts "Negative" +
        (summarize c2RowsB).sentiment_counts "Negative" ∧
    (summarize (c2RowsA ++ c2RowsB)).sentiment_counts "Neutral" =
      (summarize c2RowsA).sentiment_counts "Neutral" +
        (summarize c2RowsB).sentiment_counts "Neutral" ∧
    sentimentPercentage (c2RowsA ++ c2RowsB) "Positive" =
      ((c2RowsA.length : ℚ) * sentimentPercentage c2RowsA "Positive" +
        (c2RowsB.length : ℚ) * sentimentPercentage c2RowsB "Positive") /
        ((c2RowsA.length : ℚ) + (c2RowsB.length : ℚ)) ∧
    sentimentPercentage (c2RowsA ++ c2RowsB) "Negative" =
      ((c2RowsA.length : ℚ) * sentimentPercentage c2RowsA "Negative" +
        (c2RowsB.length : ℚ) * sentimentPercentage c2RowsB "Negative") /
        ((c2RowsA.length : ℚ) + (c2RowsB.length : ℚ)) ∧
    sentimentPercentage (c2RowsA ++ c2RowsB) "Neutral" =
      ((c2RowsA.length : ℚ) * sentimentPercentage c2RowsA "Neutral" +
        (c2RowsB.length : ℚ) * sentimentPercentage c2RowsB "Neutral") /
        ((c2RowsA.length : ℚ) + (c2RowsB.length : ℚ)) ∧
    (summarize (c2RowsA ++ c2RowsB)).average_polarity =
      ((c2RowsA.length : ℚ) * (summarize c2RowsA).average_polarity +
        (c2RowsB.length : ℚ) * (summarize c2RowsB).average_polarity) /
        ((c2RowsA.length : ℚ) + (c2RowsB.length : ℚ)) ∧
    (summarize (c2RowsA ++ c2RowsB)).average_subjectivity =
      ((c2RowsA.length : ℚ) * (summarize c2RowsA).average_subjectivity +
        (c2RowsB.length : ℚ) * (summarize c2RowsB).average_subjectivity) /
        ((c2RowsA.length : ℚ) + (c2RowsB.length : ℚ)) ∧
    (summarize (c2RowsA ++ c2RowsB)).average_confidence =
      ((c2RowsA.length : ℚ) * (summarize c2RowsA).average_confidence +
        (c2RowsB.length : ℚ) * (summarize c2RowsB).average_confidence) /
        ((c2RowsA.length : ℚ) + (c2RowsB.length : ℚ)) ∧
    (summarize (c2RowsA ++ c2RowsB)).average_star_rating =
      ((c2RowsA.length : ℚ) * (summarize c2RowsA).average_star_rating +
        (c2RowsB.length : ℚ) * (summarize c2RowsB).average_star_rating) /
        ((c2RowsA.length : ℚ) + (c2RowsB.length : ℚ)) :=
  summary_weighted_combination c2RowsA c2RowsB (by decide) (by decide)

/-! ## C3 -/

/-- A name that survived `_sanitize_business_name`: not a placeholder/header
string, longer than 2 characters, and already stripped. -/
def UsableName (n : String) : Prop :=
  n ∉ invalid_names ∧ 2 < n.length ∧ pyStrip n = n

theorem sanitize_usable (raw : String) (h : sanitize_business_name raw ≠ "") :
    UsableName (sanitize_business_name raw) := by
  by_cases h0 : raw = ""
  · exact absurd (by rw [h0]; rfl) h
  by_cases h1 : pyStrip raw ∈ invalid_names
  · exact absurd (by simp [sanitize_business_name, h0, h1]) h
  by_cases h2 : (pyStrip raw).length ≤ 2
  · exact absurd (by simp [sanitize_business_name, h0, h1, h2]) h
  have hval : sanitize_business_name raw = pyStrip raw := by
    simp [sanitize_business_name, h0, h1, h2]
  rw [hval]
  exact ⟨h1, by omega, pyStrip_idem raw⟩

theorem firstSanitizedName_usable (env : DomEnv) (sels : List String)
    (h : firstSanitizedName env sels ≠ "") :
    UsableName (firstSanitizedName env sels) := by
  induction sels with
  | nil => exact absurd rfl h
  | cons s rest ih =>
    by_cases hc : sanitize_business_name (safe_extract_text env s) ≠ ""
    · have hval : firstSanitizedName env (s :: rest) =
          sanitize_business_name (safe_extract_text env s) := by
        simp [firstSanitizedName, hc]
      rw [hval]
      exact sanitize_usable _ hc
    · have hval : firstSanitizedName env (s :: rest) = firstSanitizedName env rest := by
        simp [firstSanitizedName, hc]
      rw [hval] at h ⊢
      exact ih h

theorem usableName_ne_empty {n : String} (h : UsableName n) : n ≠ "" := by
  intro he
  rw [he] at h
  exact absurd h.2.1 (by decide)

theorem business_ne_empty (n : ℕ) : "Business " ++ natRepr (n + 1) ≠ "" := by
  intro h
  have hd := congrArg String.data h
  rw [show ("Business " ++ natRepr (n + 1)).data =
    'B' :: ("usiness ".data ++ natDigits (n + 1 + 1) (n + 1)) from rfl] at hd
  simp at hd

theorem singleCompetitorName_cases (driver : DriverView) (item : DomEnv) (index : ℕ) :
    UsableName (singleCompetitorName driver item index) ∨
      singleCompetitorName driver item index = "Business " ++ natRepr (index + 1) := by
  unfold singleCompetitorName
  by_cases h0 : firstSanitizedName driver.sel single_name_selectors ≠ ""
  · rw [if_pos h0]
    exact Or.inl (firstSanitizedName_usable _ _ h0)
  rw [if_neg h0]
  by_cases h1 : sanitize_business_name (safe_extract_text item ".fontHeadlineSmall") ≠ ""
  · rw [if_pos h1]
    exact Or.inl (sanitize_usable _ h1)
  rw [if_neg h1]
  by_cases h2 : sanitize_business_name (safe_extract_text item "h3") ≠ ""
  · rw [if_pos h2]
    exact Or.inl (sanitize_usable _ h2)
  · rw [if_neg h2]
    exact Or.inr rfl

theorem listItemName_cases (item : DomEnv) (index : ℕ) :
    UsableName (listItemName item index) ∨
      listItemName item index = "Business " ++ natRepr (index + 1) := by
  unfold listItemName
  by_cases h0 : firstSanitizedName item list_name_selectors ≠ ""
  · rw [if_pos h0]
    exact Or.inl (firstSanitizedName_usable _ _ h0)
  · rw [if_neg h0]
    exact Or.inr rfl

theorem extract_single_name_spec (extract_place_id : String → String)
    (driver : DriverView) (item : DomEnv) (index : ℕ) (c : Competitor)
    (h : extract_single_competitor extract_place_id driver item index = some c) :
    c.index = index + 1 ∧ c.name ≠ "" ∧ UsableName c.name ∧
      c.name ≠ "Business " ++ natRepr (index + 1) := by
  unfold extract_single_competitor at h
  by_cases hcond : (singleCompetitorRecord extract_place_id driver item index).name ≠ "" ∧
      (singleCompetitorRecord extract_place_id driver item index).name ≠
        "Business " ++ natRepr (index + 1)
  · rw [if_pos hcond] at h
    have hc : c = singleCompetitorRecord extract_place_id driver item index :=
      (Option.some.injEq _ _).mp h.symm
    subst hc
    refine ⟨rfl, hcond.1, ?_, hcond.2⟩
    show UsableName (pyStrip (singleCompetitorName driver item index))
    rcases singleCompetitorName_cases driver item index with hu | hs
    · rw [hu.2.2]
      exact hu
    · exfalso
      have h2' := hcond.2
      have hname : (singleCompetitorRecord extract_place_id driver item index).name =
          pyStrip (singleCompetitorName driver item index) := rfl
      rw [hname, hs, pyStrip_business index] at h2'
      exact h2' rfl
  · rw [if_neg hcond] at h
    exact absurd h (by simp)

theorem extract_list_name_spec (item : DomEnv) (index : ℕ) (c : Competitor)
    (h : extract_from_list_item item index = some c) :
    c.index = index + 1 ∧ c.name ≠ "" ∧
      (c.name = "Business " ++ natRepr (index + 1) ∨ UsableName c.name) := by
  unfold extract_from_list_item at h
  have hc := (Option.some.injEq _ _).mp h.symm
  subst hc
  refine ⟨rfl, ?_, ?_⟩
  · show pyStrip (listItemName item index) ≠ ""
    rcases listItemName_cases item index with hu | hs
    · rw [hu.2.2]
      exact usableName_ne_empty hu
    · rw [hs, pyStrip_business index]
      exact business_ne_empty index
  · show pyStrip (listItemName item index) = "Business " ++ natRepr (index + 1) ∨
      UsableName (pyStrip (listItemName item index))
    rcases listItemName_cases item index with hu | hs
    · rw [hu.2.2]
      exact Or.inr hu
    · rw [hs, pyStrip_business index]
      exact Or.inl rfl

theorem extractCompetitorsLoop_names (extract_place_id : String → String) :
    ∀ (l : List (DriverView × DomEnv)) (i : ℕ),
      ∀ c ∈ extractCompetitorsLoop extract_place_id l i,
        c.name ≠ "" ∧ (c.name = "Business " ++ natRepr c.index ∨ UsableName c.name) := by
  intro l
  induction l with
  | nil => intro i c hc; simp [extractCompetitorsLoop] at hc
  | cons hd rest ih =>
    intro i c hc
    obtain ⟨driver, item⟩ := hd
    rw [show extractCompetitorsLoop extract_place_id ((driver, item) :: rest) i =
        (match extract_single_competitor extract_place_id driver item i with
         | some c => c :: extractCompetitorsLoop extract_place_id rest (i + 1)
         | none =>
           match extract_from_list_item item i with
           | some c => c :: extractCompetitorsLoop extract_place_id rest (i + 1)
           | none => extractCompetitorsLoop extract_place_id rest (i + 1)) from rfl] at hc
    cases h1 : extract_single_competitor extract_place_id driver item i with
    | some c1 =>
      rw [h1] at hc
      rcases List.mem_cons.mp hc with rfl | hmem
      · obtain ⟨hidx, hne, hu, _⟩ := extract_single_name_spec _ _ _ _ _ h1
        exact ⟨hne, Or.inr hu⟩
      · exact ih (i + 1) c hmem
    | none =>
      rw [h1] at hc
      cases h2 : extract_from_list_item item i with
      | some c2 =>
        rw [h2] at hc
        rcases List.mem_cons.mp hc with rfl | hmem
        · obtain ⟨hidx, hne, hcases⟩ := extract_list_name_spec _ _ _ h2
          refine ⟨hne, ?_⟩
          rcases hcases with hb | hu
          · rw [hidx]
            exact Or.inl hb
          · exact Or.inr hu
        · exact ih (i + 1) c hmem
      | none =>
        rw [h2] at hc
        exact ih (i + 1) c hc

/-- C3 amended: every competitor record emitted by `_extract_competitor_data`
has a non-empty name that is either a sanitized name — not one of the
configured placeholder/header strings, longer than 2 characters after
stripping — or, on the list-view fallback path only, the synthetic string
`"Business {index}"` for its stored 1-based index. -/
theorem competitor_name_invariant (extract_place_id : String → String)
    (result_items : List (DriverView × DomEnv)) (max_results : ℕ) :
    ∀ c ∈ extract_competitor_data extract_place_id result_items max_results,
      c.name ≠ "" ∧
        (c.name = "Business " ++ natRepr c.index ∨
          (c.name ∉ invalid_names ∧ 2 < c.name.length ∧ pyStrip c.name = c.name)) :=
  fun c hc =>
    extractCompetitorsLoop_names extract_place_id (result_items.take max_results) 0 c hc

def c3Pid : String → String := fun _ => ""

def c3Driver : DriverView :=
  { sel := fun _ => none, current_url := "https://maps.example/results" }

def c3Item : DomEnv := fun _ => none

/-- C3 counterexample: on a result item where every selector fails, detailed
extraction is rejected but the list-view fallback emits a competitor whose
name is exactly the synthetic `"Business 1"` — refuting the claim that the
synthetic fallback string is never emitted. -/
theorem competitor_synthetic_name_emitted :
    (extract_competitor_data c3Pid [(c3Driver, c3Item)] 5).map
      (fun c => (c.name, c.index)) = [("Business 1", 1)] := by
  decide

def c3Witness : Competitor :=
  { name := "Business 1", rating := 0, review_count := 0, address := "", phone := "",
    google_maps_url := "https://www.google.com/maps/search/Business+1", place_id := "",
    index := 1, reviews_url := none }

/-- C3 witness: the amended invariant instantiated at the concrete emitted
record. -/
theorem competitor_name_invariant_witness :
    c3Witness.name ≠ "" ∧
      (c3Witness.name = "Business " ++ natRepr c3Witness.index ∨
        (c3Witness.name ∉ invalid_names ∧ 2 < c3Witness.name.length ∧
          pyStrip c3Witness.name = c3Witness.name)) :=
  competitor_name_invariant c3Pid [(c3Driver, c3Item)] 5 c3Witness (by decide)

/-! ## C4 -/

/-- C4: a scraped review node's record is retained exactly when the extracted
body text is non-empty after stripping and is not case-insensitively equal to
the sentinel `"No Review Text"`; consequently a scrape whose nodes all yield
only the sentinel produces an empty review sequence. -/
theorem review_retention (url : String) (nodes : List ReviewNode) :
    processReviewNodes url nodes =
      (nodes.filter fun n =>
        (pyStrip (extractReviewText n) != "") &&
          (pyLower (extractReviewText n) != "no review text")).map
        (buildReviewRecord url) ∧
    ((∀ n ∈ nodes, extractReviewText n = "No Review Text") →
      processReviewNodes url nodes = []) := by
  have hmain : processReviewNodes url nodes =
      (nodes.filter fun n =>
        (pyStrip (extractReviewText n) != "") &&
          (pyLower (extractReviewText n) != "no review text")).map
        (buildReviewRecord url) := by
    induction nodes with
    | nil => rfl
    | cons n t ih =>
      have hrt : (buildReviewRecord url n).reviewText = extractReviewText n := rfl
      simp only [processReviewNodes] at ih ⊢
      rw [List.filterMap_cons, List.filter_cons]
      by_cases h1 : pyStrip (extractReviewText n) = ""
      · have hb : ((pyStrip (extractReviewText n) != "") &&
            (pyLower (extractReviewText n) != "no review text")) = false := by
          rw [h1]
          rfl
        rw [if_neg (by rw [hrt]; rintro ⟨-, h2, -⟩; exact h2 h1)]
        simp [hb, ih]
      · by_cases h2 : pyLower (extractReviewText n) = "no review text"
        · have hb : ((pyStrip (extractReviewText n) != "") &&
              (pyLower (extractReviewText n) != "no review text")) = false := by
            rw [h2]
            simp
          rw [if_neg (by rw [hrt]; rintro ⟨-, -, h3⟩; exact h3 h2)]
          simp [hb, ih]
        · have hb : ((pyStrip (extractReviewText n) != "") &&
              (pyLower (extractReviewText n) != "no review text")) = true := by
            simp [h1, h2]
          rw [if_pos (by rw [hrt]; exact ⟨pyStrip_ne_empty h1, h1, h2⟩)]
          simp [hb, ih]
  refine ⟨hmain, fun hall => ?_⟩
  rw [hmain]
  have hfil : (nodes.filter fun n =>
      (pyStrip (extractReviewText n) != "") &&
        (pyLower (extractReviewText n) != "no review text")) = [] := by
    rw [List.filter_eq_nil]
    intro n hn
    rw [hall n hn]
    decide
  rw [hfil]
  rfl

def c4Node : ReviewNode := fun _ => none

/-- C4 witness: a node where every text selector fails yields only the
sentinel, and the scrape of such nodes retains nothing. -/
theorem review_retention_witness :
    processReviewNodes "https://maps.example/place/x/reviews" [c4Node] = [] :=
  (review_retention "https://maps.example/place/x/reviews" [c4Node]).2
    (by
      intro n hn
      rw [List.mem_singleton] at hn
      subst hn
      rfl)

/-! ## C5 -/

theorem firstDigit_le_nine : ∀ (l : List Char) (d : ℕ), firstDigit l = some d → d ≤ 9 := by
  intro l
  induction l with
  | nil => intro d h; exact absurd h (by simp [firstDigit])
  | cons c t ih =>
    intro d h
    unfold firstDigit at h
    by_cases hd : 48 ≤ c.toNat ∧ c.toNat ≤ 57
    · rw [if_pos hd] at h
      injection h with h'
      omega
    · rw [if_neg hd] at h
      exact ih d h

theorem labelToStarsAux_le_nine (label_lower label : String) :
    labelToStarsAux label_lower label ≤ 9 := by
  unfold labelToStarsAux
  by_cases h1 : strContains label_lower "very negative" = true
  · simp [h1]
  rw [if_neg (by simpa using h1)]
  by_cases h2 : label_lower = "negative"
  · simp [h2]
  rw [if_neg h2]
  by_cases h3 : label_lower = "neutral"
  · simp [h3]
  rw [if_neg h3]
  by_cases h4 : label_lower = "positive"
  · simp [h4]
  rw [if_neg h4]
  by_cases h5 : strContains label_lower "very positive" = true
  · simp [h5]
  rw [if_neg (by simpa using h5)]
  cases hfd : firstDigit label.data with
  | none => simp
  | some d =>
    have := firstDigit_le_nine label.data d hfd
    simpa using this

theorem labelToStars_le_nine (label : String) : labelToStars label ≤ 9 :=
  labelToStarsAux_le_nine _ _

def c5BadPipe : Pipeline := some fun _ => Except.ok ("9", 1/2)

/-- C5 counterexample: a label outside the known vocabulary whose embedded
digit is 9 produces an internal star-equivalent of 9 ∉ {1..5} and a polarity
of 3.0 ∉ [-1.0, 1.0], refuting the claimed ranges. -/
theorem classifier_range_counterexample :
    labelToStars "9" = 9 ∧ ¬(labelToStars "9" ≤ 5) ∧
    (analyze_sentiment_textblob c5BadPipe "good").1.polarity = 3 ∧
    ¬((analyze_sentiment_textblob c5BadPipe "good").1.polarity ≤ 1) := by
  have hstars : labelToStars "9" = 9 := by decide
  have hpol : (analyze_sentiment_textblob c5BadPipe "good").1.polarity =
      ((labelToStars "9" : ℚ) - 3) / 2 := rfl
  rw [hstars] at hpol
  refine ⟨hstars, by omega, ?_, ?_⟩
  · rw [hpol]
    norm_num
  · rw [hpol]
    norm_num

/-- C5 amended: for every input text and label the model may return,
`analyze_sentiment_textblob` computes polarity = (star − 3) / 2 where the
internal star-equivalent is `labelToStars label`; the star-equivalent lies in
{0..9} (the digit fallback admits any single digit, defaulting to 3), so the
polarity lies in [−1.5, 3.0] rather than [−1.0, 1.0]. -/
theorem classifier_polarity_amended (pipeline : Pipeline)
    (g : String → Except String (String × ℚ)) (text label : String) (score : ℚ)
    (hp : pipeline = some g) (ht : pyStrip text ≠ "")
    (hg : g text = Except.ok (label, score)) :
    (analyze_sentiment_textblob pipeline text).1.polarity =
      ((labelToStars label : ℚ) - 3) / 2 ∧
    labelToStars label ≤ 9 ∧
    -(3 / 2) ≤ (analyze_sentiment_textblob pipeline text).1.polarity ∧
    (analyze_sentiment_textblob pipeline text).1.polarity ≤ 3 := by
  subst hp
  have hval : (analyze_sentiment_textblob (some g) text).1.polarity =
      ((labelToStars label : ℚ) - 3) / 2 := by
    simp only [analyze_sentiment_textblob, if_neg ht, hg]
  have h9 : labelToStars label ≤ 9 := labelToStars_le_nine label
  have h9' : ((labelToStars label : ℕ) : ℚ) ≤ 9 := by exact_mod_cast h9
  have h0' : (0 : ℚ) ≤ ((labelToStars label : ℕ) : ℚ) := Nat.cast_nonneg _
  refine ⟨hval, h9, ?_, ?_⟩
  · rw [hval]
    linarith
  · rw [hval]
    linarith

def c5GoodPipe : Pipeline := some fun _ => Except.ok ("Very Positive", 9/10)

/-- C5 witness: the amended theorem instantiated at a concrete pipeline. -/
theorem classifier_polarity_amended_witness :
    (analyze_sentiment_textblob c5GoodPipe "good service").1.polarity =
      ((labelToStars "Very Positive" : ℚ) - 3) / 2 ∧
    labelToStars "Very Positive" ≤ 9 ∧
    -(3 / 2) ≤ (analyze_sentiment_textblob c5GoodPipe "good service").1.polarity ∧
    (analyze_sentiment_textblob c5GoodPipe "good service").1.polarity ≤ 3 :=
  classifier_polarity_amended c5GoodPipe (fun _ => Except.ok ("Very Positive", 9/10))
    "good service" "Very Positive" (9/10) rfl (by decide) rfl

/-! ## C6 -/

/-- C6: when discovery yields an empty competitor list, the orchestrator
returns exactly the error dictionary
`{"error": "No competitors found", "competitors": [], "analysis_results": {}}`
and performs zero scrape calls; the embedding is a total function, so no
exception is raised. -/
theorem no_competitors_short_circuit (pipeline : Pipeline)
    (scrape : String → List ScrapedReview) :
    analyze_competitors_sentiment pipeline [] scrape =
      (AnalysisOutcome.errorResult "No competitors found" [] [], 0) := rfl

/-- C6 witness: the short-circuit at a concrete pipeline and scraper. -/
theorem no_competitors_short_circuit_witness :
    analyze_competitors_sentiment none [] (fun _ => []) =
      (AnalysisOutcome.errorResult "No competitors found" [] [], 0) :=
  no_competitors_short_circuit none (fun _ => [])

/-! ## C7 -/

/-- C7: `analyze_sentiment_textblob` never propagates a failure: empty or
whitespace-only input yields the Neutral/zero default with zero model calls;
an uninitialized pipeline yields the same default without a model call; and a
model invocation that raises is caught and replaced by the same default. -/
theorem classifier_never_raises (pipeline : Pipeline) (text : String) :
    (pyStrip text = "" →
      analyze_sentiment_textblob pipeline text = (defaultNeutralResult, 0)) ∧
    analyze_sentiment_textblob none text = (defaultNeutralResult, 0) ∧
    (∀ (g : String → Except String (String × ℚ)) (e : String),
      pyStrip text ≠ "" → pipeline = some g → g text = Except.error e →
      analyze_sentiment_textblob pipeline text = (defaultNeutralResult, 1)) := by
  refine ⟨fun h => ?_, ?_, fun g e ht hp hg => ?_⟩
  · unfold analyze_sentiment_textblob
    rw [if_pos h]
  · unfold analyze_sentiment_textblob
    by_cases h : pyStrip text = ""
    · rw [if_pos h]
    · rw [if_neg h]
  · subst hp
    simp only [analyze_sentiment_textblob, if_neg ht, hg]

def c7Pipe : Pipeline := some fun _ => Except.error "model crashed"

/-- C7 witness: the theorem instantiated at whitespace-only input and at a
pipeline whose invocation raises. -/
theorem classifier_never_raises_witness :
    analyze_sentiment_textblob c7Pipe "   " = (defaultNeutralResult, 0) ∧
    analyze_sentiment_textblob c7Pipe "ok" = (defaultNeutralResult, 1) :=
  ⟨(classifier_never_raises c7Pipe "   ").1 (by decide),
   (classifier_never_raises c7Pipe "ok").2.2 (fun _ => Except.error "model crashed")
     "model crashed" (by decide) rfl rfl⟩

/-! ## C8 -/

/-- C8 counterexample: a URL that contains `/place/` and does not end in
`/reviews` but has `/reviews` as an interior segment.  The claim predicts
`/reviews` is appended; the code checks `"/reviews" not in url` (substring,
not suffix) and returns the URL unchanged. -/
theorem reviews_url_counterexample :
    get_google_reviews_url "https://www.google.com/maps/place/Cafe/reviews/data" =
      some "https://www.google.com/maps/place/Cafe/reviews/data" ∧
    pyEndsWith "https://www.google.com/maps/place/Cafe/reviews/data" "/reviews" = false ∧
    strContains "https://www.google.com/maps/place/Cafe/reviews/data" "/place/" = true ∧
    get_google_reviews_url "https://www.google.com/maps/place/Cafe/reviews/data" ≠
      some ("https://www.google.com/maps/place/Cafe/reviews/data" ++ "/reviews") := by
  decide

/-- C8 amended: for every non-empty maps URL, `get_google_reviews_url`
appends `/reviews` (to the URL with trailing `/` characters stripped) exactly
when the URL contains `/place/` and does not already contain `/reviews`
anywhere as a substring; in every other case it returns the URL unchanged. -/
theorem reviews_url_amended (url : String) (h : url ≠ "") :
    (SubstringOf "/place/" url ∧ ¬ SubstringOf "/reviews" url →
      get_google_reviews_url url = some (pyRstripSlash url ++ "/reviews")) ∧
    (¬ SubstringOf "/place/" url → get_google_reviews_url url = some url) ∧
    (SubstringOf "/reviews" url → get_google_reviews_url url = some url) := by
  refine ⟨fun ⟨hp, hr⟩ => ?_, fun hnp => ?_, fun hr => ?_⟩
  · have hp' : strContains url "/place/" = true := (substringOf_iff _ _).mp hp
    have hr' : strContains url "/reviews" = false := by
      cases hb : strContains url "/reviews"
      · rfl
      · exact absurd ((substringOf_iff _ _).mpr hb) hr
    simp [get_google_reviews_url, h, hp', hr']
  · have hp' : strContains url "/place/" = false := by
      cases hb : strContains url "/place/"
      · rfl
      · exact absurd ((substringOf_iff _ _).mpr hb) hnp
    simp [get_google_reviews_url, h, hp']
  · have hr' : strContains url "/reviews" = true := (substringOf_iff _ _).mp hr
    by_cases hp : strContains url "/place/" = true
    · simp [get_google_reviews_url, h, hp, hr']
    · simp [get_google_reviews_url, h,
        (Bool.not_eq_true _).mp hp]

/-- C8 witness: the amended behavior at a concrete URL with a trailing
slash — `/reviews` is appended after the slash is stripped. -/
theorem reviews_url_amended_witness :
    get_google_reviews_url "https://www.google.com/maps/place/X/" =
      some (pyRstripSlash "https://www.google.com/maps/place/X/" ++ "/reviews") :=
  (reviews_url_amended "https://www.google.com/maps/place/X/" (by decide)).1
    ⟨by decide, by decide⟩

/-! ## C9 -/

def altCounts (i : ℕ) : ℕ := if i % 2 = 0 then 2 else 1

theorem altCounts_loops :
    ∀ fuel k, scrollRun 10 altCounts fuel ⟨1, 0, 2 * k⟩ = none ∧
      scrollRun 10 altCounts fuel ⟨2, 0, 2 * k + 1⟩ = none := by
  intro fuel
  induction fuel with
  | zero => intro k; exact ⟨rfl, rfl⟩
  | succ fuel ih =>
    intro k
    constructor
    · have h1 : altCounts (2 * k) = 2 := by
        simp [altCounts, Nat.mul_mod_right]
      have hstep : scrollRun 10 altCounts (fuel + 1) ⟨1, 0, 2 * k⟩ =
          scrollRun 10 altCounts fuel ⟨2, 0, 2 * k + 1⟩ := by
        show (if 10 ≤ 1 then some 1
          else if altCounts (2 * k) = 1 then
            if 20 ≤ 0 + 1 then some 1
            else scrollRun 10 altCounts fuel ⟨1, 0 + 1, 2 * k + 1⟩
          else scrollRun 10 altCounts fuel ⟨altCounts (2 * k), 0, 2 * k + 1⟩) =
          scrollRun 10 altCounts fuel ⟨2, 0, 2 * k + 1⟩
        rw [if_neg (by omega), if_neg (by omega : ¬altCounts (2 * k) = 1), h1]
      rw [hstep]
      exact (ih k).2
    · have h1 : altCounts (2 * k + 1) = 1 := by
        have hm : (2 * k + 1) % 2 = 1 := by omega
        simp [altCounts, hm]
      have hstep : scrollRun 10 altCounts (fuel + 1) ⟨2, 0, 2 * k + 1⟩ =
          scrollRun 10 altCounts fuel ⟨1, 0, 2 * (k + 1)⟩ := by
        show (if 10 ≤ 2 then some 2
          else if altCounts (2 * k + 1) = 2 then
            if 20 ≤ 0 + 1 then some 2
            else scrollRun 10 altCounts fuel ⟨2, 0 + 1, 2 * k + 1 + 1⟩
          else scrollRun 10 altCounts fuel ⟨altCounts (2 * k + 1), 0, 2 * k + 1 + 1⟩) =
          scrollRun 10 altCounts fuel ⟨1, 0, 2 * (k + 1)⟩
        rw [if_neg (by omega), if_neg (by omega : ¬altCounts (2 * k + 1) = 2), h1,
          show 2 * k + 1 + 1 = 2 * (k + 1) by omega]
      rw [hstep]
      exact (ih (k + 1)).1

/-- C9 counterexample: with a DOM whose re-query counts alternate 2, 1, 2, 1, …
the count changes on every re-query, so the stall counter is reset forever and
the count never reaches the limit: the scroll loop does not terminate.  This
refutes termination for *every* sequence of re-query results. -/
theorem scroll_loop_nontermination : ¬ scrollTerminates 10 altCounts ⟨1, 0, 0⟩ := by
  rintro ⟨fuel, hsome⟩
  have hnone : scrollRun 10 altCounts fuel ⟨1, 0, 0⟩ = none := (altCounts_loops fuel 0).1
  rw [hnone] at hsome
  exact absurd hsome (by simp)

theorem scrollRun_isSome (limit : ℕ) (oracle : ℕ → ℕ)
    (hmono : ∀ i, oracle i ≤ oracle (i + 1)) :
    ∀ fuel s, s.count ≤ oracle s.idx →
      21 * (limit - s.count) + (20 - s.attempts) + 1 ≤ fuel →
      (scrollRun limit oracle fuel s).isSome = true := by
  intro fuel
  induction fuel with
  | zero => intro s hstart hfuel; omega
  | succ fuel ih =>
    intro s hstart hfuel
    show (if limit ≤ s.count then some s.count
      else if oracle s.idx = s.count then
        if 20 ≤ s.attempts + 1 then some s.count
        else scrollRun limit oracle fuel ⟨s.count, s.attempts + 1, s.idx + 1⟩
      else scrollRun limit oracle fuel ⟨oracle s.idx, 0, s.idx + 1⟩).isSome = true
    by_cases hlim : limit ≤ s.count
    · rw [if_pos hlim]
      rfl
    rw [if_neg hlim]
    by_cases heq : oracle s.idx = s.count
    · rw [if_pos heq]
      by_cases h20 : 20 ≤ s.attempts + 1
      · rw [if_pos h20]
        rfl
      · rw [if_neg h20]
        refine ih ⟨s.count, s.attempts + 1, s.idx + 1⟩ ?_ ?_
        · show s.count ≤ oracle (s.idx + 1)
          calc s.count = oracle s.idx := heq.symm
            _ ≤ oracle (s.idx + 1) := hmono s.idx
        · show 21 * (limit - s.count) + (20 - (s.attempts + 1)) + 1 ≤ fuel
          omega
    · rw [if_neg heq]
      have hlt : s.count < oracle s.idx := lt_of_le_of_ne hstart (fun he => heq he.symm)
      refine ih ⟨oracle s.idx, 0, s.idx + 1⟩ ?_ ?_
      · show oracle s.idx ≤ oracle (s.idx + 1)
        exact hmono s.idx
      · show 21 * (limit - oracle s.idx) + (20 - 0) + 1 ≤ fuel
        omega

/-- C9 amended: for every monotonically non-decreasing sequence of DOM
re-query counts whose first value is at least the initial node count, the
scroll loop terminates: as defined in `scrollRun` it increments the stall
counter whenever the re-queried count is unchanged (resetting it on change),
aborts after 20 consecutive stalls, and stops once `scroll_limit` nodes have
been found — whichever comes first. -/
theorem scroll_loop_terminates (limit : ℕ) (oracle : ℕ → ℕ) (start : ℕ)
    (hmono : ∀ i, oracle i ≤ oracle (i + 1)) (hstart : start ≤ oracle 0) :
    scrollTerminates limit oracle ⟨start, 0, 0⟩ :=
  ⟨21 * (limit - start) + 20 + 1,
    scrollRun_isSome limit oracle hmono _ ⟨start, 0, 0⟩ hstart (Nat.le_refl _)⟩

/-- C9 witness: the amended theorem at the identity re-query sequence. -/
theorem scroll_loop_terminates_witness : scrollTerminates 3 (fun i => i) ⟨0, 0, 0⟩ :=
  scroll_loop_terminates 3 (fun i => i) 0 (fun i => Nat.le_succ i) (Nat.le_refl 0)

/-! ## C10 -/

def c10Scraped : ScrapedReview :=
  { name := "A", reviewsCount := "N/A", stars := "100", reviewText := "nice place",
    sourceUrl := "https://maps.example/place/y/reviews" }

/-- C10: `extract_star_rating` truncates the first decimal number toward zero
and never clamps to 1..5 — `"4.5 stars"` yields 4 and `"100"` yields 100 — so
the `Star Rating` column of `process_reviews_dataframe` and the
`average_star_rating` of `generate_sentiment_summary` can fall outside the
documented 1..5 scale. -/
theorem star_rating_truncation_no_clamp :
    extract_star_rating "4.5 stars" = 4 ∧
    extract_star_rating "100" = 100 ∧
    (process_reviews_dataframe none [c10Scraped]).map (fun r => r.starRating) = [100] ∧
    generate_sentiment_summary (process_reviews_dataframe none [c10Scraped]) =
      some (summarize (process_reviews_dataframe none [c10Scraped])) ∧
    (summarize (process_reviews_dataframe none [c10Scraped])).average_star_rating = 100 ∧
    ¬((summarize (process_reviews_dataframe none [c10Scraped])).average_star_rating ≤ 5) := by
  have hfloor : ∀ q : ℚ, pyInt q = ⌊q⌋ := fun q => Rat.floor_def.symm
  have h45 : extract_star_rating "4.5 stars" = 4 := by
    have hq : firstNumber "4.5 stars".data =
        some ((natOfDigits ['4'] : ℚ) + fracOfDigits ['5']) := rfl
    have hnat : natOfDigits ['4'] = 4 := by decide
    have h5 : ('5'.toNat - 48 : ℕ) = 5 := by decide
    have hfrac : fracOfDigits ['5'] = 5 / 10 := by
      show ((('5'.toNat - 48 : ℕ) : ℚ) + 0) / 10 = 5 / 10
      rw [h5]
      norm_num
    show (match firstNumber "4.5 stars".data with
      | some q => pyInt q
      | none => 3 : ℤ) = (4 : ℤ)
    rw [hq, hnat, hfrac]
    show pyInt (((4 : ℕ) : ℚ) + 5 / 10) = 4
    rw [hfloor, Int.floor_eq_iff]
    constructor
    · push_cast
      norm_num
    · push_cast
      norm_num
  have h100 : extract_star_rating "100" = 100 := by
    have hq : firstNumber "100".data = some ((natOfDigits ['1', '0', '0'] : ℚ)) := rfl
    have hnat : natOfDigits ['1', '0', '0'] = 100 := by decide
    show (match firstNumber "100".data with
      | some q => pyInt q
      | none => 3 : ℤ) = (100 : ℤ)
    rw [hq, hnat]
    show pyInt (((100 : ℕ) : ℚ)) = (100 : ℤ)
    rw [hfloor]
    push_cast
    simp
  have hrow : process_reviews_dataframe none [c10Scraped] =
      [{ sentiment := "Neutral", polarity := 0, subjectivity := 0, confidence := 0,
         starRating := extract_star_rating "100" }] := rfl
  have havg : (summarize (process_reviews_dataframe none [c10Scraped])).average_star_rating =
      ((extract_star_rating "100" : ℚ)) / 1 := by
    rw [hrow]
    show ((extract_star_rating "100" : ℚ) + 0) / ((1 : ℕ) : ℚ) = _
    norm_num
  refine ⟨h45, h100, ?_, rfl, ?_, ?_⟩
  · rw [hrow, h100]
    rfl
  · rw [havg, h100]
    norm_num
  · rw [havg, h100]
    norm_num

end Transformilca
